import Mathlib

/-!
# Verification of the Motion draggable/deceleration engine

A shallow embedding in Lean of the numeric core of `src/motion.js`
(class `Draggable`).  JavaScript numbers are modelled by `ℚ`; the one
place where IEEE non-finite values matter (division by a zero elapsed
time in the velocity estimator) is modelled explicitly with `Option ℚ`,
`none` standing for a non-finite result (`Infinity` / `NaN`).

Each definition mirrors one function (or one axis of one function) of
the source; line numbers in the doc comments refer to `src/motion.js`.
-/

namespace Motion

/-- A bounding rectangle as returned by `getBoundingClientRect`
(`left ≤ right`, `top ≤ bottom` in real DOM use; the fields are kept
raw and `width`/`height` are the derived extents, matching the DOMRect
contract `width = right - left`, `height = bottom - top`). -/
structure Rect where
  left : ℚ
  top : ℚ
  right : ℚ
  bottom : ℚ
deriving DecidableEq, Repr

/-- `DOMRect.width`. -/
def Rect.width (r : Rect) : ℚ := r.right - r.left

/-- `DOMRect.height`. -/
def Rect.height (r : Rect) : ℚ := r.bottom - r.top

/-- The cached margin of an object (`cacheProperties`, lines 501-504:
`marginLeft` is `X`, `marginTop` is `Y`). -/
structure Margin where
  X : ℚ
  Y : ℚ
deriving DecidableEq, Repr

/-- The legal translation range of an object relative to its container
(`getBoundsRelativeTo`'s return shape). -/
structure Bounds where
  minX : ℚ
  minY : ℚ
  maxX : ℚ
  maxY : ℚ
deriving DecidableEq, Repr

/-- `Draggable.getBoundsRelativeTo` (src/motion.js lines 432-453).
The default bounds are
`minX = 0 + margin.X`, `minY = 0 + margin.Y`,
`maxX = (toRect.right - toRect.left) - (objectRect.right - objectRect.left) - margin.X`,
`maxY = (toRect.bottom - toRect.top) - (objectRect.bottom - objectRect.top) - margin.X`
(the source subtracts `objectMargin.X` in `maxY` as well, line 442);
then, per axis, if the object's extent exceeds the container's the
bounds are overwritten with `min = -(objectExtent - containerExtent)`,
`max = 0` (lines 445-450). -/
def getBoundsRelativeTo (objectRect toRect : Rect) (objectMargin : Margin) : Bounds :=
  let b : Bounds :=
    { minX := 0 + objectMargin.X
      minY := 0 + objectMargin.Y
      maxX := (toRect.right - toRect.left) - (objectRect.right - objectRect.left) - objectMargin.X
      maxY := (toRect.bottom - toRect.top) - (objectRect.bottom - objectRect.top) - objectMargin.X }
  let b :=
    if objectRect.width > toRect.width then
      { b with minX := -(objectRect.width - toRect.width), maxX := 0 }
    else b
  if objectRect.height > toRect.height then
    { b with minY := -(objectRect.height - toRect.height), maxY := 0 }
  else b

/-- One axis of the position computation in `onMouseMove`
(src/motion.js lines 262-271): the raw target is
`cursorPosRelativeToContainer - initialCursorPosRelativeToObject`; then
for `bound ∈ {min, max}`, if `Math[bound](position, objectBounds[bound]) === position`
the position is replaced by
`bound + (position - bound) * (1 - edgeFriction)`.
`Math.min p b === p` is `p ≤ b` and `Math.max p b === p` is `b ≤ p`,
kept here in the literal `min`/`max` form of the source. -/
def onMouseMovePositionAxis (edgeFriction minB maxB cursor grab : ℚ) : ℚ :=
  let p := cursor - grab
  let p := if min p minB = p then minB + (p - minB) * (1 - edgeFriction) else p
  if max p maxB = p then maxB + (p - maxB) * (1 - edgeFriction) else p

/-- JavaScript division as used by the velocity estimator: dividing a
finite number by `0` yields `Infinity`, `-Infinity` or `NaN`, never a
finite number; `none` stands for any non-finite result. -/
def jsDiv (a b : ℚ) : Option ℚ := if b = 0 then none else some (a / b)

/-- One axis of the velocity update in `onMouseMove`
(src/motion.js line 275):
`cache.velocity[axis] = (position[axis] - cache.position[axis]) / deltaTime`.
There is no guard on `deltaTime`; with `deltaTime = 0` the stored
velocity is the non-finite JavaScript value `(Δp)/0`. -/
def onMouseMoveVelocityAxis (newPos oldPos deltaTime : ℚ) : Option ℚ :=
  jsDiv (newPos - oldPos) deltaTime

/-- One axis of the velocity overwrite in `onMouseUp`
(src/motion.js lines 308-313): for `bound ∈ {min, max}`, if
`Math[bound](position, objectBounds[bound]) === position` then
`cache.velocity[axis] = -((position - objectBounds[bound]) / 100)`.
Both bound checks test the same unmodified `position`. -/
def onMouseUpVelocityAxis (minB maxB pos vel : ℚ) : ℚ :=
  let v := if min pos minB = pos then -((pos - minB) / 100) else vel
  if max pos maxB = pos then -((pos - maxB) / 100) else v

/-- `Math.sign`. -/
def jsSign (x : ℚ) : ℚ := if 0 < x then 1 else if x < 0 then -1 else 0

/-- `~~x` (ToInt32 truncation); for the in-range values that arise here
it is truncation toward zero. -/
def jsTrunc (q : ℚ) : ℚ := if 0 ≤ q then (⌊q⌋ : ℚ) else (⌈q⌉ : ℚ)

/-- Position and velocity of one axis during deceleration. -/
structure AxisState where
  pos : ℚ
  vel : ℚ
deriving DecidableEq, Repr

/-- One axis of one deceleration step in `progressAnimations`
(src/motion.js lines 376-389):
`velocity = cache.velocity * (1 - (deltaTime / 1000 * friction))`;
if the decayed velocity is truthy (non-zero) the position advances by
`velocity * deltaTime`; then for `bound ∈ {min, max}`, if the position
meets the bound (`Math[bound](position, b) === position`) and
`Math.sign(velocity) === Math[bound](1, -1)` (that is `-1` for `min`,
`1` for `max`), the velocity is reflected to
`-(velocity * (1 - bounceFriction))` and the position clamped to the
bound.  The `min` branch runs first and the `max` branch sees its
updates, exactly as in the source's `forEach`. -/
def decelTickAxis (friction bounceFriction minB maxB dt : ℚ) (s : AxisState) : AxisState :=
  let v := s.vel * (1 - (dt / 1000 * friction))
  let p := if v ≠ 0 then s.pos + v * dt else s.pos
  let s1 : AxisState :=
    if min p minB = p ∧ jsSign v = -1 then
      ⟨minB, -(v * (1 - bounceFriction))⟩
    else ⟨p, v⟩
  if max s1.pos maxB = s1.pos ∧ jsSign s1.vel = 1 then
    ⟨maxB, -(s1.vel * (1 - bounceFriction))⟩
  else s1

/-- The per-object state advanced by the deceleration loop
(`cache.position` and `cache.velocity`). -/
structure ObjState where
  posX : ℚ
  posY : ℚ
  velX : ℚ
  velY : ℚ
deriving DecidableEq, Repr

/-- Both axes of one deceleration step of one object
(src/motion.js lines 376-389); the two axes read and write disjoint
state, so the `forEach` over `['X', 'Y']` is two independent axis
steps. -/
def decelTick (friction bounceFriction : ℚ) (b : Bounds) (dt : ℚ) (s : ObjState) : ObjState :=
  let x := decelTickAxis friction bounceFriction b.minX b.maxX dt ⟨s.posX, s.velX⟩
  let y := decelTickAxis friction bounceFriction b.minY b.maxY dt ⟨s.posY, s.velY⟩
  ⟨x.pos, y.pos, x.vel, y.vel⟩

/-- `Math.abs(velocity.X) < 0.001 && Math.abs(velocity.Y) < 0.001`
(src/motion.js line 391), the stop threshold of the deceleration
loop. -/
def belowThreshold (s : ObjState) : Bool :=
  decide (|s.velX| < 1 / 1000) && decide (|s.velY| < 1 / 1000)

/-- The events the deceleration machinery emits.  `id` identifies the
object the event is about (object identity stands in for the DOM node
reference). -/
inductive Ev where
  | decelerationStart (id : ℕ)
  | decelerationEnd (id : ℕ)
  | stop (id : ℕ)
  | decelerate
deriving DecidableEq, Repr

/-- One entry of `this.decelerationStack` together with the per-object
cache fields the simulation reads (`cache.time`, `cache.position`,
`cache.velocity`, `cache.objectBounds`). -/
structure StackObj where
  id : ℕ
  time : ℚ
  state : ObjState
  bounds : Bounds
deriving DecidableEq, Repr

/-- `Draggable.animateDeceleration` (src/motion.js lines 337-353), the
enqueue of the deceleration scheduler: it emits `deceleration-start`
and then pushes the object onto the stack unconditionally — there is
no membership check.  (The `cache.time = Date.now()` reset and the
frame-loop start are not part of the stack/event content modelled
here.)  Returns the new stack and the emitted events. -/
def animateDeceleration (stack : List StackObj) (o : StackObj) :
    List StackObj × List Ev :=
  (stack ++ [o], [Ev.decelerationStart o.id])

/-- The stack pruning in `onMouseDown` (src/motion.js lines 226-232):
`indexOf` the grabbed object, and `splice` it out when present. -/
def mouseDownStackRemove (stack : List StackObj) (oid : ℕ) : List StackObj :=
  match stack.findIdx? (fun x => x.id = oid) with
  | some i => stack.eraseIdx i
  | none => stack

/-- The per-object position rounding applied just before removal
(src/motion.js line 393): `position[axis] = ~~position[axis]`. -/
def roundPos (s : ObjState) : ObjState :=
  { s with posX := jsTrunc s.posX, posY := jsTrunc s.posY }

/-- The per-object work of one `progressAnimations` pass
(src/motion.js lines 366-406): advance the object's state by
`decelTick` with `deltaTime = now - cache.time`, and set
`cache.time = now`. -/
def objTick (friction bounceFriction now : ℚ) (o : StackObj) : StackObj :=
  { o with
    time := now
    state := decelTick friction bounceFriction o.bounds (now - o.time) o.state }

/-- One object of the `stack.forEach` pass: tick it, and when both
axis speeds are below the threshold (line 391) truncate its position
(line 393) and flag it for removal.  The flag corresponds to pushing
the object's index onto `toRemoveFromStack` (line 398). -/
def processObj (friction bounceFriction now : ℚ) (o : StackObj) : StackObj × Bool :=
  let o' := objTick friction bounceFriction now o
  if belowThreshold o'.state then
    ({ o' with state := roundPos o'.state }, true)
  else (o', false)

/-- The full `stack.forEach` pass of `progressAnimations`
(src/motion.js lines 366-406), started at index `i`: the updated
objects in order, the collected removal indices (in increasing order,
as pushed), and the events emitted during the pass
(`deceleration-end` then `stop` for each flagged object, lines
395-396, in pass order). -/
def passStack (friction bounceFriction now : ℚ) :
    List StackObj → ℕ → List StackObj × List ℕ × List Ev
  | [], _ => ([], [], [])
  | o :: rest, i =>
    let pr := processObj friction bounceFriction now o
    let r := passStack friction bounceFriction now rest (i + 1)
    (pr.1 :: r.1,
     (if pr.2 then [i] else []) ++ r.2.1,
     (if pr.2 then [Ev.decelerationEnd o.id, Ev.stop o.id] else []) ++ r.2.2)

/-- The removal phase of `progressAnimations` (src/motion.js line 408):
`toRemoveFromStack.forEach(index => this.decelerationStack.splice(index, 1))`
— each collected index is spliced against the *current* (already
shrunken) stack; `splice` of an out-of-range index removes nothing. -/
def removeIndices (l : List StackObj) (idxs : List ℕ) : List StackObj :=
  idxs.foldl (fun acc i => acc.eraseIdx i) l

/-- One whole `progressAnimations` tick (src/motion.js lines 358-423)
restricted to its stack/event content: the pass over the stack, the
splice-based removal, and the final `decelerate` event (line 418).
Returns the stack after removal and the events in emission order. -/
def progressAnimations (friction bounceFriction now : ℚ)
    (stack : List StackObj) : List StackObj × List Ev :=
  let p := passStack friction bounceFriction now stack 0
  (removeIndices p.1 p.2.1, p.2.2 ++ [Ev.decelerate])

/-! ## The event bus (`on` / `off` / `once` / `trigger`)

Handlers are function objects compared by reference; `Handler.plain i`
is an externally supplied callback with identity `i`, and
`Handler.onceWrap i` is the closure `once` builds around the callback
`i` — a distinct function object, never reference-equal to the
callback it wraps. -/

/-- A subscribed function object. -/
inductive Handler where
  | plain (id : ℕ)
  | onceWrap (id : ℕ)
deriving DecidableEq, Repr

/-- `Draggable.on` (src/motion.js lines 61-71): if `indexOf(callback)`
finds the handler the call is a no-op, otherwise it is pushed.
(`on` is a reserved token in Lean, hence the name `onEvt`.) -/
def onEvt (l : List Handler) (h : Handler) : List Handler :=
  if h ∈ l then l else l ++ [h]

/-- `Draggable.off` (src/motion.js lines 79-91): `indexOf(callback)`;
if absent, return; otherwise `splice` the first occurrence out. -/
def off : List Handler → Handler → List Handler
  | [], _ => []
  | x :: xs, h => if x = h then xs else x :: off xs h

/-- `Draggable.once` (src/motion.js lines 100-110): build the closure
around `callback` and register the *closure* with `on`.  The closure's
body is modelled in `invoke`. -/
def once (l : List Handler) (id : ℕ) : List Handler :=
  onEvt l (Handler.onceWrap id)

/-- Calling one subscribed function during `trigger`: a plain callback
only runs user code (logged by id); a `once` closure runs the wrapped
callback and then executes `this.off(event, callback)` with the
*original* callback reference (src/motion.js line 104).  Returns the
listener list after the call and the invocation log. -/
def invoke (h : Handler) (l : List Handler) (log : List ℕ) :
    List Handler × List ℕ :=
  match h with
  | .plain i => (l, log ++ [i])
  | .onceWrap i => (off l (Handler.plain i), log ++ [i])

/-- `Array.prototype.forEach` over the live listener list, as used by
`trigger` (src/motion.js line 123): the index range is fixed by the
length at entry; each step reads the current element at that index
(skipping it if the list has shrunk below the index) and runs it. -/
def triggerAux : ℕ → ℕ → List Handler → List ℕ → List Handler × List ℕ
  | 0, _, l, log => (l, log)
  | fuel + 1, i, l, log =>
    match l[i]? with
    | none => triggerAux fuel (i + 1) l log
    | some h =>
      let r := invoke h l log
      triggerAux fuel (i + 1) r.1 r.2

/-- `Draggable.trigger` (src/motion.js lines 118-124) for one event
type: run every subscribed handler in order; returns the listener list
afterwards and the ids of the callbacks invoked, in call order. -/
def trigger (l : List Handler) : List Handler × List ℕ :=
  triggerAux l.length 0 l []

/-! ## Theorems -/

/-- C1: during an active drag, per axis: a raw target
`cursor - grab` strictly inside the bounds is written exactly; a
target past a bound by `Δ` is written as `bound + Δ * (1 - edgeFriction)`;
with `edgeFriction = 1` a target at or past the max bound is clamped to
it, and with `edgeFriction = 0` the raw target is written unchanged.
The hypotheses `minB ≤ maxB` and `edgeFriction ≤ 1` reflect the bounds
invariant and the settings range `edgeFriction ∈ [0, 1]`. -/
theorem C1_drag_edge_friction (ef minB maxB cursor grab : ℚ)
    (hb : minB ≤ maxB) (hef : ef ≤ 1) :
    (minB < cursor - grab → cursor - grab < maxB →
      onMouseMovePositionAxis ef minB maxB cursor grab = cursor - grab) ∧
    (maxB < cursor - grab →
      onMouseMovePositionAxis ef minB maxB cursor grab
        = maxB + (cursor - grab - maxB) * (1 - ef)) ∧
    (cursor - grab < minB →
      onMouseMovePositionAxis ef minB maxB cursor grab
        = minB + (cursor - grab - minB) * (1 - ef)) ∧
    (ef = 1 → maxB ≤ cursor - grab →
      onMouseMovePositionAxis ef minB maxB cursor grab = maxB) ∧
    (ef = 0 →
      onMouseMovePositionAxis ef minB maxB cursor grab = cursor - grab) := by
  unfold onMouseMovePositionAxis
  simp only [min_eq_left_iff, max_eq_left_iff]
  split_ifs with h1 h2 h2
  · -- raw ≤ minB and the damped value is at or past maxB
    have hd : (cursor - grab - minB) * (1 - ef) ≤ 0 :=
      mul_nonpos_of_nonpos_of_nonneg (by linarith) (by linarith)
    have heq : maxB = minB + (cursor - grab - minB) * (1 - ef) :=
      le_antisymm h2 (by linarith)
    refine ⟨fun ha _ => absurd ha (not_lt.2 h1),
      fun hbove => absurd hbove (not_lt.2 (h1.trans hb)),
      fun _ => by rw [heq]; ring,
      fun he _ => by subst he; ring,
      fun he => ?_⟩
    subst he
    have hx : minB + (cursor - grab - minB) * (1 - 0) = cursor - grab := by ring
    rw [hx]; ring
  · -- raw ≤ minB, damped value strictly below maxB
    refine ⟨fun ha _ => absurd ha (not_lt.2 h1),
      fun hbove => absurd hbove (not_lt.2 (h1.trans hb)),
      fun _ => rfl,
      fun he hup => by subst he; ring_nf; linarith,
      fun he => by subst he; ring⟩
  · -- raw > minB, raw at or past maxB
    exact ⟨fun _ hc => absurd hc (not_lt.2 h2), fun _ => rfl,
      fun hc => absurd hc.le h1,
      fun he _ => by subst he; ring,
      fun he => by subst he; ring⟩
  · -- raw strictly inside
    exact ⟨fun _ _ => rfl, fun hbove => absurd hbove.le h2,
      fun hc => absurd hc.le h1, fun _ hup => absurd hup h2,
      fun _ => rfl⟩

/-- Witness for C1: the §8 scenario — bounds `[0, 400]`,
`edgeFriction = 3/4`, raw target `450` (overshoot `50`): written
position `400 + 50 * (1 - 3/4) = 412.5`. -/
theorem C1_drag_edge_friction_witness :
    (0 : ℚ) ≤ 400 ∧ (3 : ℚ) / 4 ≤ 1 ∧
    onMouseMovePositionAxis (3 / 4) 0 400 450 0 = 825 / 2 := by
  refine ⟨by norm_num, by norm_num, ?_⟩
  have h := (C1_drag_edge_friction (3 / 4) 0 400 450 0 (by norm_num)
    (by norm_num)).2.1 (by norm_num)
  rw [h]; norm_num

/-- C2 counterexample: releasing with velocity `{X: 0.5, Y: 0}` px/ms,
`friction = 1`, one tick of `100` ms (bounds far away): the decayed X
velocity is `0.45`, but the X position advances by
`0.45 * 100 = 45` px — the displacement uses the *post-decay*
velocity (src/motion.js line 380), not the pre-decay velocity, so the
claimed advance of `50` px is wrong. -/
theorem C2_counterexample :
    ¬ ((decelTick 1 (1/2) ⟨-1000000, -1000000, 1000000, 1000000⟩ 100
          ⟨0, 0, 1/2, 0⟩).velX = 9/20 ∧
       (decelTick 1 (1/2) ⟨-1000000, -1000000, 1000000, 1000000⟩ 100
          ⟨0, 0, 1/2, 0⟩).posX = 0 + (1/2) * 100) := by
  have h : decelTick 1 (1/2) ⟨-1000000, -1000000, 1000000, 1000000⟩ 100
      ⟨0, 0, 1/2, 0⟩ = ⟨45, 0, 9/20, 0⟩ := by
    simp only [decelTick, decelTickAxis, jsSign, min_def, max_def]
    norm_num
  rw [h]
  norm_num

/-- C2 amended: in that tick the X velocity decays to `0.45` px/ms and
the X position advances by exactly `45` px (`0.45 * 100`, computed from
the post-decay velocity); the Y axis is unchanged. -/
theorem C2_decel_tick_scenario :
    decelTick 1 (1/2) ⟨-1000000, -1000000, 1000000, 1000000⟩ 100
      ⟨0, 0, 1/2, 0⟩ = ⟨45, 0, 9/20, 0⟩ := by
  simp only [decelTick, decelTickAxis, jsSign, min_def, max_def]
  norm_num

/-- C3 counterexample: object `100 × 50` at a container `500 × 300`
with cached margin `{X: 3, Y: 7}`.  The code yields
`{minX: 3, minY: 7, maxX: 397, maxY: 247}` — the min bounds are
`0 + margin` (not `0 - margin`), and `maxY` subtracts `margin.X`
(line 442), not `margin.Y`, so the claimed
`{minX: -3, minY: -7, maxX: 397, maxY: 243}` is wrong. -/
theorem C3_counterexample :
    getBoundsRelativeTo ⟨0, 0, 100, 50⟩ ⟨0, 0, 500, 300⟩ ⟨3, 7⟩
      = ⟨3, 7, 397, 247⟩ ∧
    ¬ (getBoundsRelativeTo ⟨0, 0, 100, 50⟩ ⟨0, 0, 500, 300⟩ ⟨3, 7⟩
      = ⟨0 - 3, 0 - 7, 500 - 100 - 3, 300 - 50 - 7⟩) := by
  constructor <;>
    simp only [getBoundsRelativeTo, Rect.width, Rect.height, Bounds.mk.injEq] <;>
    norm_num

/-- C3 amended: per axis the default bounds are `min = 0 + margin`
and `max = containerExtent - objectExtent - margin.X` (the X margin is
subtracted on *both* axes, src/motion.js line 442); when the object's
extent on an axis exceeds the container's, that axis's bounds are
`min = -(objectExtent - containerExtent)`, `max = 0`. -/
theorem C3_bounds_formula (objectRect toRect : Rect) (m : Margin) :
    (objectRect.width ≤ toRect.width →
      (getBoundsRelativeTo objectRect toRect m).minX = 0 + m.X ∧
      (getBoundsRelativeTo objectRect toRect m).maxX
        = toRect.width - objectRect.width - m.X) ∧
    (toRect.width < objectRect.width →
      (getBoundsRelativeTo objectRect toRect m).minX
        = -(objectRect.width - toRect.width) ∧
      (getBoundsRelativeTo objectRect toRect m).maxX = 0) ∧
    (objectRect.height ≤ toRect.height →
      (getBoundsRelativeTo objectRect toRect m).minY = 0 + m.Y ∧
      (getBoundsRelativeTo objectRect toRect m).maxY
        = toRect.height - objectRect.height - m.X) ∧
    (toRect.height < objectRect.height →
      (getBoundsRelativeTo objectRect toRect m).minY
        = -(objectRect.height - toRect.height) ∧
      (getBoundsRelativeTo objectRect toRect m).maxY = 0) := by
  unfold getBoundsRelativeTo
  split_ifs with h1 h2 h2 <;>
    simp only [Rect.width, Rect.height] at h1 h2 ⊢ <;>
    refine ⟨fun hw => ⟨?_, ?_⟩, fun hw => ⟨?_, ?_⟩, fun hh => ⟨?_, ?_⟩,
      fun hh => ⟨?_, ?_⟩⟩ <;>
    first
      | rfl
      | linarith
      | ring

/-- Witness for C3: the `100 × 50` object in the `500 × 300` container
with margin `{X: 3, Y: 7}` — both axes are in the default (not
oversized) case, giving `minX = 3` and `maxY = 247`. -/
theorem C3_bounds_formula_witness :
    (getBoundsRelativeTo ⟨0, 0, 100, 50⟩ ⟨0, 0, 500, 300⟩ ⟨3, 7⟩).minX = 3 ∧
    (getBoundsRelativeTo ⟨0, 0, 100, 50⟩ ⟨0, 0, 500, 300⟩ ⟨3, 7⟩).maxY = 247 := by
  have h := C3_bounds_formula ⟨0, 0, 100, 50⟩ ⟨0, 0, 500, 300⟩ ⟨3, 7⟩
  have h1 := (h.1 (by norm_num [Rect.width])).1
  have h2 := (h.2.2.1 (by norm_num [Rect.height])).2
  norm_num [Rect.width, Rect.height] at h1 h2
  exact ⟨h1, h2⟩

/-- C4 counterexample: object `90 × 90` in a container `100 × 100`
with margin `{X: 10, Y: 0}`: the code's bounds have
`minX = 10 > 0 = 100 - 90 - 10 = maxX`, violating `minX ≤ maxX`. -/
theorem C4_counterexample :
    ¬ ((getBoundsRelativeTo ⟨0, 0, 90, 90⟩ ⟨0, 0, 100, 100⟩ ⟨10, 0⟩).minX
      ≤ (getBoundsRelativeTo ⟨0, 0, 90, 90⟩ ⟨0, 0, 100, 100⟩ ⟨10, 0⟩).maxX) := by
  simp only [getBoundsRelativeTo, Rect.width, Rect.height]
  norm_num

/-- C4 amended: with zero cached margins the computed bounds satisfy
`minX ≤ maxX` and `minY ≤ maxY` for every object and container
rectangle, including the oversized-object special case; with a
non-zero margin the invariant can fail (see the counterexample). -/
theorem C4_bounds_ordered (objectRect toRect : Rect) :
    (getBoundsRelativeTo objectRect toRect ⟨0, 0⟩).minX
      ≤ (getBoundsRelativeTo objectRect toRect ⟨0, 0⟩).maxX ∧
    (getBoundsRelativeTo objectRect toRect ⟨0, 0⟩).minY
      ≤ (getBoundsRelativeTo objectRect toRect ⟨0, 0⟩).maxY := by
  unfold getBoundsRelativeTo
  split_ifs with h1 h2 h2 <;>
    constructor <;>
    simp only [Rect.width, Rect.height] at * <;>
    linarith

/-- C10: on pointer-up, for each axis whose final position is at or
beyond a bound — including exactly on it — the measured velocity is
overwritten with `-((position - bound) / 100)`; a position exactly on
a bound therefore zeroes that axis's velocity, and a position strictly
inside the bounds leaves the measured velocity untouched. -/
theorem C10_release_spring_velocity (minB maxB pos vel : ℚ) (hb : minB ≤ maxB) :
    (pos ≤ minB → onMouseUpVelocityAxis minB maxB pos vel = -((pos - minB) / 100)) ∧
    (maxB ≤ pos → onMouseUpVelocityAxis minB maxB pos vel = -((pos - maxB) / 100)) ∧
    (pos = minB ∨ pos = maxB → onMouseUpVelocityAxis minB maxB pos vel = 0) ∧
    (minB < pos → pos < maxB → onMouseUpVelocityAxis minB maxB pos vel = vel) := by
  unfold onMouseUpVelocityAxis
  simp only [min_eq_left_iff, max_eq_left_iff]
  split_ifs with h1 h2
  · -- maxB ≤ pos: the max branch wins
    refine ⟨fun hlow => ?_, fun _ => rfl, fun hor => ?_,
      fun _ hlt => absurd hlt (not_lt.2 h1)⟩
    · have hmm : minB = maxB := le_antisymm hb (h1.trans hlow)
      rw [hmm]
    · rcases hor with he | he
      · have he2 : pos = maxB := le_antisymm (by rw [he]; exact hb) h1
        rw [he2]; ring
      · rw [he]; ring
  · -- pos strictly below maxB, at or below minB
    refine ⟨fun _ => rfl, fun hup => absurd hup h1, fun hor => ?_,
      fun hlt _ => absurd hlt (not_lt.2 h2)⟩
    rcases hor with he | he
    · rw [he]; ring
    · exact absurd he.ge h1
  · -- strictly inside
    refine ⟨fun hlow => absurd hlow h2, fun hup => absurd hup h1, fun hor => ?_,
      fun _ _ => rfl⟩
    rcases hor with he | he
    · exact absurd he.le h2
    · exact absurd he.ge h1

/-- A container-sized bounds value used by the concrete deceleration
scenarios: position range `[-100, 100]` on both axes. -/
def demoBounds : Bounds := ⟨-100, -100, 100, 100⟩

/-- C5 counterexample: `animateDeceleration` pushes unconditionally
(src/motion.js line 342) — there is no membership check — so enqueueing
an object that is already on the stack duplicates it: after the
enqueue the object appears twice, refuting "after any enqueue, the
object appears at most once". -/
theorem C5_counterexample :
    ¬ ((animateDeceleration [⟨5, 0, ⟨0, 0, 0, 0⟩, demoBounds⟩]
        ⟨5, 0, ⟨0, 0, 0, 0⟩, demoBounds⟩).1.countP (fun x => x.id == 5) ≤ 1) := by
  simp [animateDeceleration, List.countP_cons]

/-- C5 amended: `animateDeceleration` appends the object with no
membership guard, so enqueueing an already-present object duplicates
it; when the object is *not* on the stack — which the pointer-up flow
guarantees, since pointer-down spliced it out — the enqueue adds it
exactly once and emits `deceleration-start` once (before any tick). -/
theorem C5_enqueue_adds_once (stack : List StackObj) (o : StackObj)
    (h : ∀ x ∈ stack, x.id ≠ o.id) :
    (animateDeceleration stack o).1.countP (fun x => x.id == o.id) = 1 ∧
    (animateDeceleration stack o).2 = [Ev.decelerationStart o.id] := by
  have h1 : stack.countP (fun x => x.id == o.id) = 0 := by
    rw [List.countP_eq_zero]
    intro x hx
    simpa using h x hx
  refine ⟨?_, rfl⟩
  simp [animateDeceleration, List.countP_append, h1]

/-- Witness for C5: enqueueing an object onto the empty stack puts it
there exactly once with one `deceleration-start` event. -/
theorem C5_enqueue_adds_once_witness :
    (animateDeceleration [] ⟨5, 0, ⟨0, 0, 0, 0⟩, demoBounds⟩).1.countP
      (fun x => x.id == 5) = 1 ∧
    (animateDeceleration [] ⟨5, 0, ⟨0, 0, 0, 0⟩, demoBounds⟩).2
      = [Ev.decelerationStart 5] :=
  C5_enqueue_adds_once [] ⟨5, 0, ⟨0, 0, 0, 0⟩, demoBounds⟩ (by simp)

/-- C7: the velocity estimator divides by the raw elapsed time with no
guard (src/motion.js line 275).  With two samples in the same
millisecond (`deltaTime = 0`) and a `5` px position change, the stored
velocity is the non-finite JavaScript value `5 / 0 = Infinity`
(modelled as `none`) — not "the stored velocity left unchanged", as
the spec requires. -/
theorem C7_zero_dt_velocity_nonfinite :
    onMouseMoveVelocityAxis 5 0 0 = none ∧
    ∀ q : ℚ, onMouseMoveVelocityAxis 5 0 0 ≠ some q := by
  refine ⟨rfl, fun q => ?_⟩
  simp [onMouseMoveVelocityAxis, jsDiv]

/-- C8: the post-pass removal replays the *collected* indices against
the shrinking array (src/motion.js line 408), so when two objects are
marked in one tick the wrong elements are removed.
First input (`dt = 0`): objects `0` and `1` are at rest (marked) and
object `2` is moving — the splices remove objects `0` and `2`, leaving
`[1]` instead of the claimed `[2]`, even though `deceleration-end` and
`stop` were emitted exactly for objects `0` and `1`.
Second input: objects `1` and `2` are marked — the second splice is
out of range, leaving `[0, 2]`: object `2` stays on the stack after
its `stop` event, while `stackLength` is nevertheless decremented by
`2`. -/
theorem C8_splice_removal_bug :
    ((progressAnimations 1 (1/2) 0
        [⟨0, 0, ⟨0, 0, 0, 0⟩, demoBounds⟩, ⟨1, 0, ⟨0, 0, 0, 0⟩, demoBounds⟩,
         ⟨2, 0, ⟨0, 0, 1, 0⟩, demoBounds⟩]).1.map StackObj.id = [1]) ∧
    ((progressAnimations 1 (1/2) 0
        [⟨0, 0, ⟨0, 0, 0, 0⟩, demoBounds⟩, ⟨1, 0, ⟨0, 0, 0, 0⟩, demoBounds⟩,
         ⟨2, 0, ⟨0, 0, 1, 0⟩, demoBounds⟩]).2
      = [Ev.decelerationEnd 0, Ev.stop 0, Ev.decelerationEnd 1, Ev.stop 1,
         Ev.decelerate]) ∧
    ([1] ≠ ([2] : List ℕ)) ∧
    ((progressAnimations 1 (1/2) 0
        [⟨0, 0, ⟨0, 0, 1, 0⟩, demoBounds⟩, ⟨1, 0, ⟨0, 0, 0, 0⟩, demoBounds⟩,
         ⟨2, 0, ⟨0, 0, 0, 0⟩, demoBounds⟩]).1.map StackObj.id = [0, 2]) := by
  refine ⟨?_, ?_, by simp, ?_⟩ <;>
    simp [progressAnimations, passStack, processObj, objTick, decelTick,
      decelTickAxis, belowThreshold, roundPos, jsTrunc, jsSign, removeIndices,
      demoBounds, min_def, max_def] <;>
    norm_num

/-- C9: the closure built by `once` unsubscribes with the *original*
callback reference (src/motion.js line 104), but the listener list
holds the closure, so `indexOf` finds nothing: after one trigger the
handler has run once yet its wrapper is still subscribed; a second
trigger runs the handler again; and an explicit `off` with the
original handler before any trigger removes nothing.  This contradicts
the code's own doc comment ("executes exactly once, before being
automatically removed"). -/
theorem C9_once_never_unsubscribes :
    trigger (once [] 7) = ([Handler.onceWrap 7], [7]) ∧
    (trigger (trigger (once [] 7)).1).2 = [7] ∧
    off (once [] 7) (Handler.plain 7) = [Handler.onceWrap 7] := by
  refine ⟨?_, ?_, ?_⟩ <;> rfl

/-- One deceleration step multiplies each axis speed by the decay
factor `1 - dt/1000 * friction` and the bounce reflections only shrink
it further (each reflection multiplies the speed by `1 - bounceFriction
∈ [0, 1]`). -/
theorem decelTickAxis_vel_abs_le (f bf minB maxB dt : ℚ) (s : AxisState)
    (hbf0 : 0 ≤ bf) (hbf1 : bf ≤ 1) (hq0 : 0 ≤ 1 - dt / 1000 * f) :
    |(decelTickAxis f bf minB maxB dt s).vel|
      ≤ (1 - dt / 1000 * f) * |s.vel| := by
  have habs : |s.vel * (1 - dt / 1000 * f)| = (1 - dt / 1000 * f) * |s.vel| := by
    rw [abs_mul, abs_of_nonneg hq0]; ring
  have key : ∀ x : ℚ, |x| ≤ |s.vel * (1 - dt / 1000 * f)| →
      |(-(x * (1 - bf)))| ≤ |s.vel * (1 - dt / 1000 * f)| := by
    intro x hx
    rw [abs_neg, abs_mul, abs_of_nonneg (by linarith : (0 : ℚ) ≤ 1 - bf)]
    calc |x| * (1 - bf) ≤ |x| * 1 :=
          mul_le_mul_of_nonneg_left (by linarith) (abs_nonneg x)
      _ = |x| := mul_one _
      _ ≤ _ := hx
  simp only [decelTickAxis]
  split_ifs <;>
    dsimp only <;>
    first
      | exact habs.le
      | exact (key _ le_rfl).trans habs.le
      | exact (key _ (key _ le_rfl)).trans habs.le

/-- Iterating the per-object deceleration step bounds each axis speed
geometrically by powers of the decay factor. -/
theorem decelTick_iterate_vel_bound (f bf dt : ℚ) (b : Bounds) (s : ObjState)
    (hbf0 : 0 ≤ bf) (hbf1 : bf ≤ 1) (hq0 : 0 ≤ 1 - dt / 1000 * f) (n : ℕ) :
    |((decelTick f bf b dt)^[n] s).velX|
      ≤ (1 - dt / 1000 * f) ^ n * |s.velX| ∧
    |((decelTick f bf b dt)^[n] s).velY|
      ≤ (1 - dt / 1000 * f) ^ n * |s.velY| := by
  induction n with
  | zero => simp
  | succ n ih =>
    rw [Function.iterate_succ_apply']
    have bX := decelTickAxis_vel_abs_le f bf b.minX b.maxX dt
      ⟨((decelTick f bf b dt)^[n] s).posX,
       ((decelTick f bf b dt)^[n] s).velX⟩ hbf0 hbf1 hq0
    have bY := decelTickAxis_vel_abs_le f bf b.minY b.maxY dt
      ⟨((decelTick f bf b dt)^[n] s).posY,
       ((decelTick f bf b dt)^[n] s).velY⟩ hbf0 hbf1 hq0
    have stepX : (1 - dt / 1000 * f) * |((decelTick f bf b dt)^[n] s).velX|
        ≤ (1 - dt / 1000 * f) ^ (n + 1) * |s.velX| := by
      have h2 := mul_le_mul_of_nonneg_left ih.1 hq0
      have h3 : (1 - dt / 1000 * f) * ((1 - dt / 1000 * f) ^ n * |s.velX|)
          = (1 - dt / 1000 * f) ^ (n + 1) * |s.velX| := by ring
      exact h2.trans (le_of_eq h3)
    have stepY : (1 - dt / 1000 * f) * |((decelTick f bf b dt)^[n] s).velY|
        ≤ (1 - dt / 1000 * f) ^ (n + 1) * |s.velY| := by
      have h2 := mul_le_mul_of_nonneg_left ih.2 hq0
      have h3 : (1 - dt / 1000 * f) * ((1 - dt / 1000 * f) ^ n * |s.velY|)
          = (1 - dt / 1000 * f) ^ (n + 1) * |s.velY| := by ring
      exact h2.trans (le_of_eq h3)
    exact ⟨le_trans bX stepX, le_trans bY stepY⟩

/-- A `progressAnimations` tick over a one-object stack whose object
goes below the stop threshold in this tick: the stack empties and
exactly `deceleration-end`, `stop`, `decelerate` are emitted. -/
theorem progressAnimations_singleton_removes (f bf dt t0 : ℚ) (b : Bounds)
    (oid : ℕ) (s : ObjState)
    (h : belowThreshold (decelTick f bf b dt s) = true) :
    progressAnimations f bf (t0 + dt) [⟨oid, t0, s, b⟩]
      = ([], [Ev.decelerationEnd oid, Ev.stop oid, Ev.decelerate]) := by
  simp [progressAnimations, passStack, processObj, objTick, removeIndices,
    add_sub_cancel_left, h]

/-- C6 counterexample: `friction = 1 > 0`, initial velocity
`{X: 1, Y: 0}`, bounds `[0, 100]`, `bounceFriction = 0`, ticks of
`2000` ms.  The decay factor is `1 - 2000/1000 * 1 = -1`, and the tick
maps the state `pos = (0,0)`, `vel = (1,0)` to itself (the reflected
bounce at the min bound undoes the sign flip), so the axis speed stays
`1` forever and never falls below `0.001`: repeated ticks need not
terminate for arbitrary elapsed times. -/
theorem C6_counterexample :
    decelTick 1 0 ⟨0, 0, 100, 100⟩ 2000 ⟨0, 0, 1, 0⟩ = ⟨0, 0, 1, 0⟩ ∧
    ¬ (∃ n : ℕ, belowThreshold
        ((decelTick 1 0 ⟨0, 0, 100, 100⟩ 2000)^[n] ⟨0, 0, 1, 0⟩) = true) := by
  have hfix : decelTick 1 0 ⟨0, 0, 100, 100⟩ 2000 ⟨0, 0, 1, 0⟩ = ⟨0, 0, 1, 0⟩ := by
    simp [decelTick, decelTickAxis, jsSign, min_def, max_def]
    norm_num
  refine ⟨hfix, ?_⟩
  rintro ⟨n, hn⟩
  rw [Function.iterate_fixed hfix] at hn
  simp [belowThreshold] at hn
  norm_num at hn

/-- C6 amended: for every initial state, whenever the per-tick decay
factor `1 - dt/1000 * friction` lies in `[0, 1)` (equivalently
`0 < dt * friction ≤ 1000`, which holds for `friction > 0` at ordinary
frame deltas) and `bounceFriction ∈ [0, 1]`, repeated ticks of
constant elapsed time `dt` eventually drive both axis speeds below the
`0.001` threshold; at such a tick a one-object stack pass removes the
object and emits `deceleration-end` and `stop` exactly once for it,
followed by the batch `decelerate` event.  (The unconstrained original
claim fails: see the counterexample.) -/
theorem C6_deceleration_terminates (f bf dt t0 : ℚ) (b : Bounds) (oid : ℕ)
    (s : ObjState)
    (hq0 : 0 ≤ 1 - dt / 1000 * f) (hq1 : 1 - dt / 1000 * f < 1)
    (hbf0 : 0 ≤ bf) (hbf1 : bf ≤ 1) :
    ∃ n : ℕ,
      belowThreshold ((decelTick f bf b dt)^[n + 1] s) = true ∧
      progressAnimations f bf (t0 + dt)
          [⟨oid, t0, (decelTick f bf b dt)^[n] s, b⟩]
        = ([], [Ev.decelerationEnd oid, Ev.stop oid, Ev.decelerate]) := by
  set q : ℚ := 1 - dt / 1000 * f with hqdef
  set M : ℚ := max |s.velX| |s.velY| with hMdef
  have hM0 : 0 ≤ M := le_trans (abs_nonneg s.velX) (le_max_left _ _)
  have hM1 : 0 < M + 1 := by linarith
  obtain ⟨N, hN⟩ := exists_pow_lt_of_lt_one
    (show (0 : ℚ) < 1 / 1000 / (M + 1) by positivity) hq1
  have hqN : 0 ≤ q ^ N := pow_nonneg hq0 N
  have hsmall : q ^ N * (M + 1) < 1 / 1000 := by
    have := (mul_lt_mul_of_pos_right hN hM1)
    rwa [div_mul_cancel₀ _ (ne_of_gt hM1)] at this
  have hstep : q ^ (N + 1) ≤ q ^ N :=
    pow_le_pow_of_le_one hq0 (by linarith) (Nat.le_succ N)
  have hbound := decelTick_iterate_vel_bound f bf dt b s hbf0 hbf1 hq0 (N + 1)
  have hvx : |((decelTick f bf b dt)^[N + 1] s).velX| < 1 / 1000 := by
    calc |((decelTick f bf b dt)^[N + 1] s).velX|
        ≤ q ^ (N + 1) * |s.velX| := hbound.1
      _ ≤ q ^ N * |s.velX| :=
          mul_le_mul_of_nonneg_right hstep (abs_nonneg _)
      _ ≤ q ^ N * M := mul_le_mul_of_nonneg_left (le_max_left _ _) hqN
      _ ≤ q ^ N * (M + 1) := by nlinarith
      _ < 1 / 1000 := hsmall
  have hvy : |((decelTick f bf b dt)^[N + 1] s).velY| < 1 / 1000 := by
    calc |((decelTick f bf b dt)^[N + 1] s).velY|
        ≤ q ^ (N + 1) * |s.velY| := hbound.2
      _ ≤ q ^ N * |s.velY| :=
          mul_le_mul_of_nonneg_right hstep (abs_nonneg _)
      _ ≤ q ^ N * M := mul_le_mul_of_nonneg_left (le_max_right _ _) hqN
      _ ≤ q ^ N * (M + 1) := by nlinarith
      _ < 1 / 1000 := hsmall
  have hbt : belowThreshold ((decelTick f bf b dt)^[N + 1] s) = true := by
    simp only [belowThreshold, Bool.and_eq_true, decide_eq_true_eq]
    exact ⟨hvx, hvy⟩
  refine ⟨N, hbt, ?_⟩
  have hbt' := hbt
  rw [Function.iterate_succ_apply'] at hbt'
  exact progressAnimations_singleton_removes f bf dt t0 b oid _ hbt'

/-- Witness for C6: `friction = 1`, `bounceFriction = 1/2`, uniform
ticks of `100` ms (decay factor `0.9`), initial velocity
`{X: 1/2, Y: 0}`: some number of ticks reaches the stop threshold and
the tick then removes the object, emitting its two events once. -/
theorem C6_deceleration_terminates_witness :
    (0 : ℚ) ≤ 1 - 100 / 1000 * 1 ∧ (1 : ℚ) - 100 / 1000 * 1 < 1 ∧
    ∃ n : ℕ,
      belowThreshold ((decelTick 1 (1/2) demoBounds 100)^[n + 1]
        ⟨0, 0, 1/2, 0⟩) = true ∧
      progressAnimations 1 (1/2) (0 + 100)
          [⟨9, 0, (decelTick 1 (1/2) demoBounds 100)^[n] ⟨0, 0, 1/2, 0⟩,
            demoBounds⟩]
        = ([], [Ev.decelerationEnd 9, Ev.stop 9, Ev.decelerate]) :=
  ⟨by norm_num, by norm_num,
    C6_deceleration_terminates 1 (1/2) 100 0 demoBounds 9 ⟨0, 0, 1/2, 0⟩
      (by norm_num) (by norm_num) (by norm_num) (by norm_num)⟩

/-- Witness for C10: bounds `[0, 400]`, release at `pos = 400`
(exactly on the max bound) with measured velocity `2`: the velocity is
overwritten with `0`, discarding the throw. -/
theorem C10_release_spring_velocity_witness :
    (0 : ℚ) ≤ 400 ∧ onMouseUpVelocityAxis 0 400 400 2 = 0 := by
  refine ⟨by norm_num, ?_⟩
  exact (C10_release_spring_velocity 0 400 400 2 (by norm_num)).2.2.1 (Or.inr rfl)

end Motion
